import Mathlib

/-!
# ffmpegxx demuxing core: MediaInfoFactory and DemuxerImpl

A shallow embedding of `src/libffmpegxx/avformat/MediaInfoFactory.cpp` and
`src/libffmpegxx/avformat/DemuxerImpl.cpp`.

* Calls into the FFmpeg engine are answers of an `Engine` record (one field per
  engine function the two files call).
* C++ exceptions are values of `Exn`; a throwing member function returns the
  outcome together with the object state it leaves behind.
* `double` values are kept as the unevaluated expression that produces them
  (`Double`): no floating-point arithmetic is interpreted.
* Log output (`LOG_WARN`, `av_dump_format`) is not part of the state.
-/

namespace libffmpegxx

/-! ## Engine data (libavformat / libavutil declarations used by the sources) -/

/-- The engine enum `AVMediaType`. -/
inductive AVMediaType where
  | AVMEDIA_TYPE_UNKNOWN
  | AVMEDIA_TYPE_VIDEO
  | AVMEDIA_TYPE_AUDIO
  | AVMEDIA_TYPE_DATA
  | AVMEDIA_TYPE_SUBTITLE
  | AVMEDIA_TYPE_ATTACHMENT
  | AVMEDIA_TYPE_NB
  deriving DecidableEq, Repr

/-- The engine rational `AVRational`. -/
structure AVRational where
  num : Int
  den : Int
  deriving DecidableEq, Repr

/-- A `double`, kept as the expression the source computes it with. -/
inductive Double where
  | ofInt (v : Int)
  | av_q2d (q : AVRational)
  | mulInt (ticks : Int) (d : Double)
  deriving DecidableEq, Repr

/-- The fields of `AVCodecParameters` the sources read. -/
structure AVCodecParameters where
  codec_type : AVMediaType
  codec_id : Int
  bit_rate : Int
  level : Int
  profile : Int
  format : Int
  height : Int
  width : Int
  channels : Int
  channel_layout : Int
  frame_size : Int
  sample_rate : Int
  deriving DecidableEq, Repr

/-- The fields of `AVStream` the sources read. -/
structure AVStream where
  index : Int
  codecpar : AVCodecParameters
  time_base : AVRational
  duration : Int
  start_time : Int
  avg_frame_rate : AVRational
  nb_frames : Int
  deriving DecidableEq, Repr

/-- The fields of `AVInputFormat` the sources read. -/
structure AVInputFormat where
  name : String
  long_name : String
  deriving DecidableEq, Repr

/-- The fields of `AVFormatContext` the sources read. `streams` is the array
`ctx->streams`; its length is the unsigned count `ctx->nb_streams`. -/
structure AVFormatContext where
  iformat : AVInputFormat
  url : String
  duration : Int
  start_time : Int
  streams : List AVStream
  deriving DecidableEq, Repr

/-- The unsigned stream count `ctx->nb_streams`. -/
def AVFormatContext.nb_streams (ctx : AVFormatContext) : Nat := ctx.streams.length

/-- Conversion of an `unsigned int` to the `int` parameter it is passed as. -/
def intOfUnsigned (n : Nat) : Int :=
  if n % 2 ^ 32 < 2 ^ 31 then ((n % 2 ^ 32 : Nat) : Int) else ((n % 2 ^ 32 : Nat) : Int) - 2 ^ 32

/-- The engine buffer `AVPacket`: coded bytes, stream index and raw timestamps. -/
structure AVPacket where
  data : List Nat
  stream_index : Int
  pts : Int
  dts : Int
  deriving DecidableEq, Repr

/-- The engine dictionary `AVDictionary *`: its entries in insertion order; the
null pointer is the empty list. -/
abbrev AVDictionary := List (String × String)

/-- The engine constant `AV_TIME_BASE_Q`. -/
def AV_TIME_BASE_Q : AVRational := ⟨1, 1000000⟩

/-- The answers of the FFmpeg engine to the calls the two source files make. -/
structure Engine where
  /-- Result of `avcodec_get_name`. -/
  avcodec_get_name : Int → String
  /-- Result of `av_rescale_q(a, bq, cq)`. -/
  av_rescale_q : Int → AVRational → AVRational → Int
  /-- Result of `avformat_alloc_context()`; `none` is the null pointer. -/
  avformat_alloc_context : Option AVFormatContext
  /-- Status code of `av_dict_set(&opts, key, value, AV_DICT_DONT_OVERWRITE)` on the
  dictionary `opts`; negative on failure. -/
  av_dict_set_status : AVDictionary → String → String → Int
  /-- Result of `avformat_open_input(&ctx, uri, nullptr, options)`: status code, the
  context and the option set left behind. -/
  avformat_open_input :
    AVFormatContext → String → Option AVDictionary → Int × AVFormatContext × AVDictionary
  /-- Result of `avformat_find_stream_info(ctx, options)`: status code and context. -/
  avformat_find_stream_info : AVFormatContext → Option AVDictionary → Int × AVFormatContext
  /-- Result of `av_read_frame(ctx, pkt)`: status code, context and packet. -/
  av_read_frame : AVFormatContext → AVPacket → Int × AVFormatContext × AVPacket
  /-- Result of `av_find_best_stream(ctx, type, wanted_stream_nb, -1, nullptr, 0)`. -/
  av_find_best_stream : AVFormatContext → AVMediaType → Int → Int

/-! ## Library data (public headers of the repository) -/

namespace avformat

/-- The enum `StreamType`. -/
inductive StreamType where
  | NONE
  | VIDEO
  | AUDIO
  | SUBTITLE
  | DATA
  deriving DecidableEq, Repr

end avformat

namespace time

/-- The value type `time::Seconds`. -/
structure Seconds where
  value : Double
  deriving DecidableEq, Repr

/-- The value type `time::Timebase`. -/
structure Timebase where
  num : Int
  den : Int
  deriving DecidableEq, Repr

/-- The value type `time::Timestamp`: a tick count and its timebase. -/
structure Timestamp where
  ticks : Int
  timebase : Timebase
  deriving DecidableEq, Repr

end time

namespace avformat

/-- The record `StreamBaseInfo`: fields shared by every stream kind. -/
structure StreamBaseInfo where
  codecId : Int
  codecName : String
  duration : time.Seconds
  startTime : time.Seconds
  timebase : time.Timebase
  bitrate : Int
  level : Int
  profile : Int
  deriving DecidableEq, Repr

/-- The record `VideoInfo`. -/
structure VideoInfo extends StreamBaseInfo where
  averageFramerate : Double
  frameCount : Int
  format : Int
  height : Int
  width : Int
  deriving DecidableEq, Repr

/-- The record `AudioInfo`. -/
structure AudioInfo extends StreamBaseInfo where
  format : Int
  channelCount : Int
  channelLayout : Int
  frameSize : Int
  sampleRate : Int
  deriving DecidableEq, Repr

/-- The variant held by `StreamInfo::properties`. -/
inductive StreamProperties where
  | video (info : VideoInfo)
  | audio (info : AudioInfo)
  | subtitle (info : StreamBaseInfo)
  | data (info : StreamBaseInfo)
  deriving DecidableEq, Repr

/-- The record `StreamInfo`. -/
structure StreamInfo where
  index : Int
  type : StreamType
  properties : StreamProperties
  deriving DecidableEq, Repr

/-- The container `std::map<int, StreamInfo>`: entries in increasing key order. -/
abbrev StreamsMap := List (Int × StreamInfo)

/-- The member `std::map::insert`: adds the entry at its place in key order and
leaves the map as it is when the key is already present. -/
def StreamsMap.insert : StreamsMap → Int → StreamInfo → StreamsMap
  | [], k, v => [(k, v)]
  | (k', v') :: rest, k, v =>
    if k < k' then (k, v) :: (k', v') :: rest
    else if k = k' then (k', v') :: rest
    else (k', v') :: StreamsMap.insert rest k v

/-- The member `std::map::find`: the value stored under a key, if any. -/
def StreamsMap.find (m : StreamsMap) (k : Int) : Option StreamInfo :=
  (List.find? (fun e => e.1 == k) m).map Prod.snd

/-- The keys of a map, in iteration order. -/
def StreamsMap.keys (m : StreamsMap) : List Int := m.map Prod.fst

/-- The record `MediaInfo`. -/
structure MediaInfo where
  duration : time.Seconds
  format : String
  formatLongName : String
  startTime : time.Seconds
  uri : String
  streamsInfo : StreamsMap
  deriving DecidableEq, Repr

/-! ## MediaInfoFactory.cpp -/

/-- Source function `buildMediaInfo`: the container-level fields. -/
def buildMediaInfo (info : MediaInfo) (ctx : AVFormatContext) : MediaInfo :=
  { info with
    duration := ⟨Double.mulInt ctx.duration (Double.av_q2d AV_TIME_BASE_Q)⟩
    format := ctx.iformat.name
    formatLongName := ctx.iformat.long_name
    startTime := ⟨Double.mulInt ctx.start_time (Double.av_q2d AV_TIME_BASE_Q)⟩
    uri := ctx.url }

/-- Source function `getTypeFromCodecId`. -/
def getTypeFromCodecId (codecType : AVMediaType) : StreamType :=
  match codecType with
  | AVMediaType.AVMEDIA_TYPE_UNKNOWN => StreamType.NONE
  | AVMediaType.AVMEDIA_TYPE_VIDEO => StreamType.VIDEO
  | AVMediaType.AVMEDIA_TYPE_AUDIO => StreamType.AUDIO
  | AVMediaType.AVMEDIA_TYPE_SUBTITLE => StreamType.SUBTITLE
  | AVMediaType.AVMEDIA_TYPE_ATTACHMENT => StreamType.DATA
  | AVMediaType.AVMEDIA_TYPE_DATA => StreamType.DATA
  | AVMediaType.AVMEDIA_TYPE_NB => StreamType.DATA

/-- Source function `buildGenericProperties`. -/
def buildGenericProperties (E : Engine) (stream : AVStream) : StreamBaseInfo :=
  { codecId := stream.codecpar.codec_id
    codecName := E.avcodec_get_name stream.codecpar.codec_id
    duration :=
      if stream.duration ≠ 0 then
        ⟨Double.mulInt stream.duration (Double.av_q2d stream.time_base)⟩
      else ⟨Double.ofInt 0⟩
    startTime := ⟨Double.ofInt (E.av_rescale_q stream.start_time stream.time_base ⟨1, 1⟩)⟩
    timebase := ⟨stream.time_base.num, stream.time_base.den⟩
    bitrate := stream.codecpar.bit_rate
    level := stream.codecpar.level
    profile := stream.codecpar.profile }

/-- Source function `buildVideoStreamProperties`. -/
def buildVideoStreamProperties (E : Engine) (stream : AVStream) : VideoInfo :=
  { buildGenericProperties E stream with
    averageFramerate := Double.av_q2d stream.avg_frame_rate
    frameCount := stream.nb_frames
    format := stream.codecpar.format
    height := stream.codecpar.height
    width := stream.codecpar.width }

/-- Source function `buildAudioStreamProperties`. -/
def buildAudioStreamProperties (E : Engine) (stream : AVStream) : AudioInfo :=
  { buildGenericProperties E stream with
    format := stream.codecpar.format
    channelCount := stream.codecpar.channels
    channelLayout := stream.codecpar.channel_layout
    frameSize := stream.codecpar.frame_size
    sampleRate := stream.codecpar.sample_rate }

/-- Source function `buildSubtitleStreamProperties`. -/
def buildSubtitleStreamProperties (E : Engine) (stream : AVStream) : StreamBaseInfo :=
  buildGenericProperties E stream

/-- Source function `buildDataStreamProperties`. -/
def buildDataStreamProperties (E : Engine) (stream : AVStream) : StreamBaseInfo :=
  buildGenericProperties E stream

/-- Source function `buildStreamInfo` of MediaInfoFactory.cpp. -/
def buildStreamInfo (E : Engine) (stream : AVStream) : StreamInfo :=
  let type := getTypeFromCodecId stream.codecpar.codec_type
  { index := stream.index
    type := type
    properties :=
      match type with
      | StreamType.VIDEO => StreamProperties.video (buildVideoStreamProperties E stream)
      | StreamType.AUDIO => StreamProperties.audio (buildAudioStreamProperties E stream)
      | StreamType.SUBTITLE => StreamProperties.subtitle (buildSubtitleStreamProperties E stream)
      | StreamType.DATA => StreamProperties.data (buildDataStreamProperties E stream)
      | StreamType.NONE => StreamProperties.data (buildDataStreamProperties E stream) }

/-- Source function `buildStreamsInfo`: the counted loop
`for (int streamIdx = 0; streamIdx < nbStreams; ++streamIdx)`. A read of
`streams[streamIdx]` past the end of the array is undefined in the source; it
is not reached from `build` and adds nothing here. -/
def buildStreamsInfo (E : Engine) (streamsInfo : StreamsMap) (streams : List AVStream)
    (nbStreams : Int) : StreamsMap :=
  (List.range nbStreams.toNat).foldl
    (fun (m : StreamsMap) (streamIdx : Nat) =>
      match streams[streamIdx]? with
      | some stream => StreamsMap.insert m (streamIdx : Int) (buildStreamInfo E stream)
      | none => m)
    streamsInfo

/-- The default-constructed `MediaInfo info;`. -/
def MediaInfo.empty : MediaInfo :=
  { duration := ⟨Double.ofInt 0⟩, format := "", formatLongName := "",
    startTime := ⟨Double.ofInt 0⟩, uri := "", streamsInfo := [] }

/-- Source function `MediaInfoFactory::build`. -/
def MediaInfoFactory.build (E : Engine) (ctx : AVFormatContext) : MediaInfo :=
  let info := buildMediaInfo MediaInfo.empty ctx
  { info with
    streamsInfo :=
      buildStreamsInfo E info.streamsInfo ctx.streams (intOfUnsigned ctx.nb_streams) }

end avformat

/-! ## Packet (AVPacketImpl) -/

namespace avcodec

open avformat

/-- Modelled from the spec: the class `AVPacketImpl` (its source is not among
the files): the wrapped engine packet with its byte buffer, the stream kind
tag, the timebase and the presentation and decoding timestamps. -/
structure AVPacketImpl where
  wrapped : AVPacket
  contentType : StreamType
  timebase : time.Timebase
  pts : time.Timestamp
  dts : time.Timestamp
  deriving DecidableEq, Repr

/-- Modelled from the spec: `AVPacketImpl::clear()`, which "resets buffer and
all timing fields to empty/zero"; the stream index and the kind tag are not
named by the spec and stay as they are. -/
def AVPacketImpl.clear (p : AVPacketImpl) : AVPacketImpl :=
  { p with
    wrapped := { p.wrapped with data := [], pts := 0, dts := 0 }
    timebase := ⟨0, 1⟩
    pts := ⟨0, ⟨0, 1⟩⟩
    dts := ⟨0, ⟨0, 1⟩⟩ }

/-- Modelled from the spec: `AVPacketImpl::getWrappedPacket()`. -/
def AVPacketImpl.getWrappedPacket (p : AVPacketImpl) : AVPacket := p.wrapped

/-- Modelled from the spec: `AVPacketImpl::setContentType`, metadata only. -/
def AVPacketImpl.setContentType (p : AVPacketImpl) (t : StreamType) : AVPacketImpl :=
  { p with contentType := t }

/-- Modelled from the spec: `AVPacketImpl::setTimebase`, metadata only. -/
def AVPacketImpl.setTimebase (p : AVPacketImpl) (tb : time.Timebase) : AVPacketImpl :=
  { p with timebase := tb }

/-- Modelled from the spec: `AVPacketImpl::setTimestamp(pts, dts)`, metadata only. -/
def AVPacketImpl.setTimestamp (p : AVPacketImpl) (pts dts : time.Timestamp) : AVPacketImpl :=
  { p with pts := pts, dts := dts }

/-- Modelled from the spec: `refToPacket(other)` makes the packet a reference to
the buffer of `other`; the view shows the data and metadata of `other`. -/
def AVPacketImpl.refToPacket (_p other : AVPacketImpl) : AVPacketImpl := other

end avcodec

/-! ## DemuxerImpl.cpp -/

namespace avformat

open avcodec

/-- A thrown C++ exception: `std::runtime_error(what)`, or the exception of
`THROW_FFMPEG_ERR_DESCRIPTION(description, err)`. -/
inductive Exn where
  | runtime_error (what : String)
  | ffmpeg_error (description : String) (err : Int)
  deriving DecidableEq, Repr

/-- The value of one demuxing option: `std::variant` of an `int` and a string. -/
inductive OptionValue where
  | int (v : Int)
  | string (s : String)
  deriving DecidableEq, Repr

/-- The type `DemuxingOptions`: an ordered sequence of key/value pairs. Keys and
string values reach the engine through `c_str()`; a `String` here is that
C string, the text up to the terminator. -/
abbrev DemuxingOptions := List (String × OptionValue)

/-- The members of `DemuxerImpl`; `m_formatContext = none` is the null pointer. -/
structure DemuxerImpl where
  m_uri : String
  m_formatContext : Option AVFormatContext
  m_readingPacket : AVPacketImpl
  deriving DecidableEq, Repr

/-- Modelled from the spec: the engine call
`av_dict_set(&opts, key, value, AV_DICT_DONT_OVERWRITE)`, a "do not overwrite"
merge ("first value for a duplicate key wins, later duplicates are silently
ignored"). A key is a duplicate when it is the same string as a stored key. The
status code is the engine's answer; a failed call leaves the dictionary as it
is. -/
def av_dict_set (E : Engine) (pm : AVDictionary) (key value : String) : Int × AVDictionary :=
  let status := E.av_dict_set_status pm key value
  if status < 0 then (status, pm)
  else if pm.any (fun e => e.1 == key) then (status, pm)
  else (status, pm ++ [(key, value)])

/-- Modelled from the spec: the engine call `avformat_close_input(&ctx)`, which
releases the context if one is held and leaves the null pointer. -/
def avformat_close_input (_ps : Option AVFormatContext) : Option AVFormatContext := none

/-- The string form of an option value in `parseOptions`: `std::to_string` for
an `int`, the string itself otherwise. -/
def valueStr (value : OptionValue) : String :=
  match value with
  | .int v => toString v
  | .string s => s

/-- The loop of `parseOptions` from a given dictionary on. -/
def parseOptionsFrom (E : Engine) : AVDictionary → DemuxingOptions → Except Exn AVDictionary
  | opts, [] => .ok opts
  | opts, (key, value) :: rest =>
    let r := av_dict_set E opts key (valueStr value)
    if r.1 < 0 then .error (Exn.ffmpeg_error ("Error while parsing option " ++ key) r.1)
    else parseOptionsFrom E r.2 rest

/-- Source function `parseOptions`. -/
def parseOptions (E : Engine) (options : DemuxingOptions) : Except Exn AVDictionary :=
  parseOptionsFrom E [] options

/-- The argument `opts ? (&opts) : nullptr`. -/
def optionsArg (opts : AVDictionary) : Option AVDictionary :=
  if opts.isEmpty then none else some opts

/-- Source function `DemuxerImpl::close`. -/
def DemuxerImpl.close (self : DemuxerImpl) : DemuxerImpl :=
  { self with m_formatContext := avformat_close_input self.m_formatContext }

/-- Source function `DemuxerImpl::~DemuxerImpl`: `close()`, then the working
packet is deleted; the members as `close()` leaves them. -/
def DemuxerImpl.destructor (self : DemuxerImpl) : DemuxerImpl := self.close

/-- Source function `DemuxerImpl::getMediaInfo`, on the context held. -/
def DemuxerImpl.getMediaInfo (E : Engine) (m_formatContext : AVFormatContext) : MediaInfo :=
  MediaInfoFactory.build E m_formatContext

/-- Source function `DemuxerImpl::open`: the outcome (the returned `MediaInfo` or
the exception thrown) and the demuxer after the call. -/
def DemuxerImpl.open (E : Engine) (self : DemuxerImpl) (options : DemuxingOptions) :
    Except Exn MediaInfo × DemuxerImpl :=
  match self.m_formatContext with
  | some _ => (.error (Exn.runtime_error "Trying to open but it is already opened"), self)
  | none =>
    match E.avformat_alloc_context with
    | none =>
      (.error (Exn.runtime_error "Error allocating format context."),
        { self with m_formatContext := none })
    | some ctx0 =>
      let self1 := { self with m_formatContext := some ctx0 }
      match parseOptions E options with
      | .error e => (.error e, self1)
      | .ok opts =>
        let r := E.avformat_open_input ctx0 self1.m_uri (optionsArg opts)
        let self2 := { self1 with m_formatContext := some r.2.1 }
        if r.1 < 0 then
          (.error (Exn.ffmpeg_error ("Error opening media: " ++ self2.m_uri) r.1), self2.close)
        else
          let p := E.avformat_find_stream_info r.2.1 (optionsArg r.2.2)
          let self3 := { self2 with m_formatContext := some p.2 }
          if p.1 < 0 then
            (.error (Exn.ffmpeg_error
              ("Could not open find stream info for media: " ++ self3.m_uri) p.1), self3.close)
          else (.ok (DemuxerImpl.getMediaInfo E p.2), self3)

/-- The static table `EXPECTED_TYPES` of `getStreamType`. -/
def EXPECTED_TYPES : List AVMediaType :=
  [AVMediaType.AVMEDIA_TYPE_VIDEO, AVMediaType.AVMEDIA_TYPE_AUDIO, AVMediaType.AVMEDIA_TYPE_DATA,
   AVMediaType.AVMEDIA_TYPE_SUBTITLE, AVMediaType.AVMEDIA_TYPE_ATTACHMENT]

/-- The probing loop of `getStreamType`: `foundType` after the loop. -/
def findType (E : Engine) (m_formatContext : AVFormatContext) (streamIdx : Int) : AVMediaType :=
  EXPECTED_TYPES.foldl
    (fun (foundType : AVMediaType) (mediaType : AVMediaType) =>
      let foundIndex := E.av_find_best_stream m_formatContext mediaType streamIdx
      if foundIndex = streamIdx then mediaType else foundType)
    AVMediaType.AVMEDIA_TYPE_UNKNOWN

/-- Source function `DemuxerImpl::getStreamType`, on the context held (the one
member it reads besides `m_uri`, which is only logged). -/
def DemuxerImpl.getStreamType (E : Engine) (m_formatContext : AVFormatContext)
    (streamIdx : Int) : StreamType :=
  match findType E m_formatContext streamIdx with
  | AVMediaType.AVMEDIA_TYPE_VIDEO => StreamType.VIDEO
  | AVMediaType.AVMEDIA_TYPE_AUDIO => StreamType.AUDIO
  | AVMediaType.AVMEDIA_TYPE_DATA => StreamType.DATA
  | AVMediaType.AVMEDIA_TYPE_SUBTITLE => StreamType.SUBTITLE
  | _ => StreamType.NONE

/-- Source function `DemuxerImpl::read`: the returned code, the demuxer and the
caller's packet after the call. `none` stands for a call whose behaviour the
source leaves undefined: no context held, or a stream index outside the
stream array. -/
def DemuxerImpl.read (E : Engine) (self : DemuxerImpl) (packet : AVPacketImpl) :
    Option (Int × DemuxerImpl × AVPacketImpl) :=
  let packet1 := packet.clear
  let avpacket := self.m_readingPacket.getWrappedPacket
  match self.m_formatContext with
  | none => none
  | some ctx =>
    let r := E.av_read_frame ctx avpacket
    let error := r.1
    let self1 : DemuxerImpl :=
      { self with
        m_formatContext := some r.2.1
        m_readingPacket := { self.m_readingPacket with wrapped := r.2.2 } }
    if error < 0 then some (error, self1, packet1)
    else if r.2.2.stream_index < 0 then none
    else
      match r.2.1.streams[r.2.2.stream_index.toNat]? with
      | none => none
      | some stream =>
        let streamTb : time.Timebase := ⟨stream.time_base.num, stream.time_base.den⟩
        let rp :=
          ((self1.m_readingPacket.setContentType
              (DemuxerImpl.getStreamType E r.2.1 r.2.2.stream_index)).setTimebase
            streamTb).setTimestamp ⟨r.2.2.pts, streamTb⟩ ⟨r.2.2.dts, streamTb⟩
        some (error, { self1 with m_readingPacket := rp }, packet1.refToPacket rp)

/-! ## Reference notions used to state the properties -/

/-- The engine lookup `av_dict_get` by exact key: the value stored under `key`. -/
def dictGet (d : AVDictionary) (key : String) : Option String :=
  (List.find? (fun e => e.1 == key) d).map Prod.snd

/-- The string form of the value of the first occurrence of `key` in an options
sequence, if the key occurs at all. -/
def firstValue (options : DemuxingOptions) (key : String) : Option String :=
  (List.find? (fun o => o.1 == key) options).map (fun o => valueStr o.2)

/-- The last candidate kind, in the order of `EXPECTED_TYPES`, whose best-stream
query resolves to exactly `streamIdx`. -/
def lastMatching (E : Engine) (ctx : AVFormatContext) (streamIdx : Int) : Option AVMediaType :=
  (EXPECTED_TYPES.filter
    (fun t => decide (E.av_find_best_stream ctx t streamIdx = streamIdx))).getLast?

/-- The demuxer holds a container context. -/
def DemuxerImpl.isOpen (self : DemuxerImpl) : Prop := self.m_formatContext.isSome = true

/-- The demuxer holds no container context. -/
def DemuxerImpl.isClosed (self : DemuxerImpl) : Prop := self.m_formatContext = none

/-! ## Concrete inputs -/

/-- Codec parameters of the given media type, other fields fixed. -/
def sampleCodecpar (t : AVMediaType) : AVCodecParameters :=
  { codec_type := t, codec_id := 27, bit_rate := 128000, level := 30, profile := 1, format := 0,
    height := 480, width := 640, channels := 2, channel_layout := 3, frame_size := 1024,
    sample_rate := 44100 }

/-- A stream of the given index and media type on a 1/90000 timebase. -/
def sampleStream (index : Int) (t : AVMediaType) : AVStream :=
  { index := index, codecpar := sampleCodecpar t, time_base := ⟨1, 90000⟩, duration := 180000,
    start_time := 0, avg_frame_rate := ⟨25, 1⟩, nb_frames := 50 }

/-- A freshly allocated context: no format fields, no streams. -/
def blankContext : AVFormatContext :=
  { iformat := ⟨"", ""⟩, url := "", duration := 0, start_time := 0, streams := [] }

/-- An opened container with a video, an audio and an attachment stream. -/
def sampleContext : AVFormatContext :=
  { iformat := ⟨"matroska", "Matroska"⟩, url := "clip.mkv", duration := 2000000, start_time := 0,
    streams :=
      [sampleStream 0 AVMediaType.AVMEDIA_TYPE_VIDEO,
       sampleStream 1 AVMediaType.AVMEDIA_TYPE_AUDIO,
       sampleStream 2 AVMediaType.AVMEDIA_TYPE_ATTACHMENT] }

/-- The engine code `AVERROR_EOF`. -/
def AVERROR_EOF : Int := -541478725

/-- The engine code `AVERROR(ENOMEM)`. -/
def AVERROR_ENOMEM : Int := -12

/-- The engine code `AVERROR(ENOENT)`. -/
def AVERROR_ENOENT : Int := -2

/-- The engine code `AVERROR_STREAM_NOT_FOUND`. -/
def AVERROR_STREAM_NOT_FOUND : Int := -1381258232

/-- An engine that opens `sampleContext`, is at end of stream, and answers each
best-stream query with the wanted index when that stream has the asked type. -/
def sampleEngine : Engine :=
  { avcodec_get_name := fun _ => "h264"
    av_rescale_q := fun a _ _ => a
    avformat_alloc_context := some blankContext
    av_dict_set_status := fun _ _ _ => 0
    avformat_open_input := fun _ _ _ => (0, sampleContext, [])
    avformat_find_stream_info := fun ctx _ => (0, ctx)
    av_read_frame := fun ctx pkt => (AVERROR_EOF, ctx, pkt)
    av_find_best_stream := fun ctx t wanted =>
      if wanted < 0 then AVERROR_STREAM_NOT_FOUND
      else
        match ctx.streams[wanted.toNat]? with
        | some s => if s.codecpar.codec_type = t then wanted else AVERROR_STREAM_NOT_FOUND
        | none => AVERROR_STREAM_NOT_FOUND }

/-- An engine that resolves both the video and the audio query to the wanted index. -/
def ambiguousEngine : Engine :=
  { sampleEngine with
    av_find_best_stream := fun _ t wanted =>
      if t = AVMediaType.AVMEDIA_TYPE_VIDEO ∨ t = AVMediaType.AVMEDIA_TYPE_AUDIO then wanted
      else AVERROR_STREAM_NOT_FOUND }

/-- An engine whose dictionary insertion runs out of memory. -/
def noMemoryDictEngine : Engine :=
  { sampleEngine with av_dict_set_status := fun _ _ _ => AVERROR_ENOMEM }

/-- An engine that refuses to open the source locator. -/
def missingFileEngine : Engine :=
  { sampleEngine with avformat_open_input := fun ctx _ opts => (AVERROR_ENOENT, ctx, opts.getD []) }

/-- A blank working packet. -/
def blankPacket : AVPacketImpl :=
  { wrapped := ⟨[], 0, 0, 0⟩, contentType := StreamType.NONE, timebase := ⟨0, 1⟩,
    pts := ⟨0, ⟨0, 1⟩⟩, dts := ⟨0, ⟨0, 1⟩⟩ }

/-- A caller packet still showing an earlier video unit. -/
def usedPacket : AVPacketImpl :=
  { wrapped := ⟨[0, 0, 1, 103], 0, 90000, 87000⟩, contentType := StreamType.VIDEO,
    timebase := ⟨1, 90000⟩,
    pts := ⟨90000, ⟨1, 90000⟩⟩, dts := ⟨87000, ⟨1, 90000⟩⟩ }

/-- The packet `usedPacket` after `clear()`, field by field. -/
def clearedUsedPacket : AVPacketImpl :=
  { wrapped := ⟨[], 0, 0, 0⟩, contentType := StreamType.VIDEO, timebase := ⟨0, 1⟩,
    pts := ⟨0, ⟨0, 1⟩⟩, dts := ⟨0, ⟨0, 1⟩⟩ }

/-- A demuxer before any `open()`. -/
def closedDemuxer : DemuxerImpl :=
  { m_uri := "clip.mkv", m_formatContext := none, m_readingPacket := blankPacket }

/-- A demuxer holding `sampleContext`. -/
def openDemuxer : DemuxerImpl :=
  { m_uri := "clip.mkv", m_formatContext := some sampleContext, m_readingPacket := blankPacket }

/-- The demuxer `closedDemuxer` holding the freshly allocated context. -/
def allocatedDemuxer : DemuxerImpl :=
  { m_uri := "clip.mkv", m_formatContext := some blankContext, m_readingPacket := blankPacket }

/-! ## MediaInfoFactory: the stream mapping -/

theorem intOfUnsigned_of_lt (n : Nat) (h : n < 2 ^ 31) : intOfUnsigned n = (n : Int) := by
  have h32 : n % 2 ^ 32 = n := Nat.mod_eq_of_lt (by omega)
  unfold intOfUnsigned
  rw [h32, if_pos h]

theorem StreamsMap.insert_of_keys_lt (m : StreamsMap) (k : Int) (v : StreamInfo)
    (h : ∀ e ∈ m, e.1 < k) : StreamsMap.insert m k v = m ++ [(k, v)] := by
  induction m with
  | nil => rfl
  | cons e rest ih =>
    obtain ⟨k', v'⟩ := e
    have hk : k' < k := h (k', v') (List.mem_cons_self _ _)
    have hrest : ∀ e ∈ rest, e.1 < k := fun e he => h e (List.mem_cons_of_mem _ he)
    have h1 : ¬ k < k' := by omega
    have h2 : ¬ k = k' := by omega
    simp only [StreamsMap.insert, if_neg h1, if_neg h2, ih hrest, List.cons_append]

theorem buildStreamsInfo_succ (E : Engine) (m0 : StreamsMap) (streams : List AVStream) (n : Nat) :
    buildStreamsInfo E m0 streams ((n + 1 : Nat) : Int) =
      match streams[n]? with
      | some stream =>
        StreamsMap.insert (buildStreamsInfo E m0 streams (n : Int)) (n : Int)
          (buildStreamInfo E stream)
      | none => buildStreamsInfo E m0 streams (n : Int) := by
  simp only [buildStreamsInfo, Int.toNat_ofNat, List.range_succ, List.foldl_append,
    List.foldl_cons, List.foldl_nil]

theorem StreamsMap.find_isSome_iff (m : StreamsMap) (k : Int) :
    (StreamsMap.find m k).isSome = true ↔ k ∈ StreamsMap.keys m := by
  induction m with
  | nil => simp [StreamsMap.find, StreamsMap.keys]
  | cons e rest ih =>
    obtain ⟨k', v'⟩ := e
    by_cases hk : k' = k
    · simp [StreamsMap.find, StreamsMap.keys, List.find?_cons, hk]
    · have hk' : ¬ k = k' := fun h => hk h.symm
      simp only [StreamsMap.find, StreamsMap.keys] at ih
      simp [StreamsMap.find, StreamsMap.keys, List.find?_cons, hk, hk', ih]

theorem StreamsMap.find_append_single (m : StreamsMap) (k i : Int) (v : StreamInfo) :
    StreamsMap.find (m ++ [(k, v)]) i =
      (StreamsMap.find m i).or (if k = i then some v else none) := by
  induction m with
  | nil =>
    by_cases hk : k = i <;> simp [StreamsMap.find, List.find?_cons, hk]
  | cons e rest ih =>
    obtain ⟨k', v'⟩ := e
    by_cases hk : k' = i
    · simp [StreamsMap.find, List.find?_cons, hk]
    · have hb : (k' == i) = false := by simpa using hk
      simp only [StreamsMap.find, List.cons_append, List.find?_cons, hb] at ih ⊢
      exact ih

/-- The invariant of the loop of `buildStreamsInfo` started on the empty map:
after `n` rounds the keys are `0 .. n-1` in order and key `i` holds the info
built from `streams[i]`. -/
theorem buildStreamsInfo_invariant (E : Engine) (streams : List AVStream) (n : Nat)
    (hn : n ≤ streams.length) :
    StreamsMap.keys (buildStreamsInfo E [] streams (n : Int)) = (List.range n).map Int.ofNat ∧
    ∀ (i : Nat) (hi : i < streams.length), i < n →
      StreamsMap.find (buildStreamsInfo E [] streams (n : Int)) (i : Int) =
        some (buildStreamInfo E (streams.get ⟨i, hi⟩)) := by
  induction n with
  | zero =>
    refine ⟨?_, fun i _ h => absurd h (Nat.not_lt_zero i)⟩
    simp [buildStreamsInfo, StreamsMap.keys]
  | succ n ih =>
    obtain ⟨hkeys, hfind⟩ := ih (Nat.le_of_succ_le hn)
    have hlt : n < streams.length := hn
    have hget : streams[n]? = some (streams.get ⟨n, hlt⟩) := by
      simp [List.getElem?_eq_getElem hlt]
    have hall : ∀ e ∈ buildStreamsInfo E [] streams (n : Int), e.1 < (n : Int) := by
      intro e he
      have hmem : e.1 ∈ StreamsMap.keys (buildStreamsInfo E [] streams (n : Int)) :=
        List.mem_map_of_mem Prod.fst he
      rw [hkeys] at hmem
      obtain ⟨j, hj, hje⟩ := List.mem_map.mp hmem
      have hjn : j < n := List.mem_range.mp hj
      rw [← hje]
      exact Int.ofNat_lt.mpr hjn
    have hstep : buildStreamsInfo E [] streams ((n + 1 : Nat) : Int) =
        buildStreamsInfo E [] streams (n : Int) ++
          [((n : Int), buildStreamInfo E (streams.get ⟨n, hlt⟩))] := by
      rw [buildStreamsInfo_succ, hget]
      exact StreamsMap.insert_of_keys_lt _ _ _ hall
    refine ⟨?_, ?_⟩
    · rw [hstep]
      simp only [StreamsMap.keys] at hkeys ⊢
      rw [List.map_append, hkeys, List.range_succ, List.map_append]
      rfl
    · intro i hi hin
      rw [hstep, StreamsMap.find_append_single]
      by_cases hi' : i < n
      · rw [hfind i hi hi']
        rfl
      · have hieq : i = n := by omega
        subst hieq
        have hnone : StreamsMap.find (buildStreamsInfo E [] streams (i : Int)) (i : Int) = none := by
          by_contra hne
          have hsome : (StreamsMap.find (buildStreamsInfo E [] streams (i : Int)) (i : Int)).isSome
              = true := by
            cases hf : StreamsMap.find (buildStreamsInfo E [] streams (i : Int)) (i : Int) with
            | none => exact absurd hf hne
            | some _ => rfl
          have hmem := (StreamsMap.find_isSome_iff _ _).mp hsome
          rw [hkeys] at hmem
          obtain ⟨j, hj, hje⟩ := List.mem_map.mp hmem
          have hjn : j < i := List.mem_range.mp hj
          have : (j : Int) = (i : Int) := hje
          omega
        rw [hnone]
        simp

theorem build_streamsInfo_eq (E : Engine) (ctx : AVFormatContext) :
    (MediaInfoFactory.build E ctx).streamsInfo =
      buildStreamsInfo E [] ctx.streams (intOfUnsigned ctx.nb_streams) := rfl

theorem open_when_held (E : Engine) (self : DemuxerImpl) (options : DemuxingOptions)
    (ctx : AVFormatContext) (h : self.m_formatContext = some ctx) :
    DemuxerImpl.open E self options =
      (.error (Exn.runtime_error "Trying to open but it is already opened"), self) := by
  unfold DemuxerImpl.open
  rw [h]

theorem open_alloc_failed (E : Engine) (self : DemuxerImpl) (options : DemuxingOptions)
    (h : self.m_formatContext = none) (halloc : E.avformat_alloc_context = none) :
    DemuxerImpl.open E self options =
      (.error (Exn.runtime_error "Error allocating format context."), self) := by
  unfold DemuxerImpl.open
  rw [h, halloc]
  cases self
  simp only at h
  subst h
  rfl

theorem open_parse_failed (E : Engine) (self : DemuxerImpl) (options : DemuxingOptions)
    (ctx0 : AVFormatContext) (e : Exn)
    (h : self.m_formatContext = none) (halloc : E.avformat_alloc_context = some ctx0)
    (hparse : parseOptions E options = .error e) :
    DemuxerImpl.open E self options = (.error e, { self with m_formatContext := some ctx0 }) := by
  unfold DemuxerImpl.open
  rw [h, halloc]
  simp only [hparse]

theorem open_input_failed (E : Engine) (self : DemuxerImpl) (options : DemuxingOptions)
    (ctx0 : AVFormatContext) (opts : AVDictionary)
    (h : self.m_formatContext = none) (halloc : E.avformat_alloc_context = some ctx0)
    (hparse : parseOptions E options = .ok opts)
    (hfail : (E.avformat_open_input ctx0 self.m_uri (optionsArg opts)).1 < 0) :
    DemuxerImpl.open E self options =
      (.error (Exn.ffmpeg_error ("Error opening media: " ++ self.m_uri)
          (E.avformat_open_input ctx0 self.m_uri (optionsArg opts)).1),
        { self with m_formatContext := none }) := by
  unfold DemuxerImpl.open
  rw [h, halloc]
  simp only [hparse, if_pos hfail, DemuxerImpl.close, avformat_close_input]

theorem open_probe_failed (E : Engine) (self : DemuxerImpl) (options : DemuxingOptions)
    (ctx0 : AVFormatContext) (opts : AVDictionary)
    (h : self.m_formatContext = none) (halloc : E.avformat_alloc_context = some ctx0)
    (hparse : parseOptions E options = .ok opts)
    (hopen : ¬ (E.avformat_open_input ctx0 self.m_uri (optionsArg opts)).1 < 0)
    (hfail : (E.avformat_find_stream_info
        (E.avformat_open_input ctx0 self.m_uri (optionsArg opts)).2.1
        (optionsArg (E.avformat_open_input ctx0 self.m_uri (optionsArg opts)).2.2)).1 < 0) :
    DemuxerImpl.open E self options =
      (.error (Exn.ffmpeg_error ("Could not open find stream info for media: " ++ self.m_uri)
          (E.avformat_find_stream_info
            (E.avformat_open_input ctx0 self.m_uri (optionsArg opts)).2.1
            (optionsArg (E.avformat_open_input ctx0 self.m_uri (optionsArg opts)).2.2)).1),
        { self with m_formatContext := none }) := by
  unfold DemuxerImpl.open
  rw [h, halloc]
  simp only [hparse, if_neg hopen, if_pos hfail, DemuxerImpl.close, avformat_close_input]

theorem open_succeeded (E : Engine) (self : DemuxerImpl) (options : DemuxingOptions)
    (ctx0 : AVFormatContext) (opts : AVDictionary)
    (h : self.m_formatContext = none) (halloc : E.avformat_alloc_context = some ctx0)
    (hparse : parseOptions E options = .ok opts)
    (hopen : ¬ (E.avformat_open_input ctx0 self.m_uri (optionsArg opts)).1 < 0)
    (hprobe : ¬ (E.avformat_find_stream_info
        (E.avformat_open_input ctx0 self.m_uri (optionsArg opts)).2.1
        (optionsArg (E.avformat_open_input ctx0 self.m_uri (optionsArg opts)).2.2)).1 < 0) :
    DemuxerImpl.open E self options =
      (.ok (MediaInfoFactory.build E (E.avformat_find_stream_info
          (E.avformat_open_input ctx0 self.m_uri (optionsArg opts)).2.1
          (optionsArg (E.avformat_open_input ctx0 self.m_uri (optionsArg opts)).2.2)).2),
        { self with m_formatContext := some (E.avformat_find_stream_info
          (E.avformat_open_input ctx0 self.m_uri (optionsArg opts)).2.1
          (optionsArg (E.avformat_open_input ctx0 self.m_uri (optionsArg opts)).2.2)).2 }) := by
  unfold DemuxerImpl.open
  rw [h, halloc]
  simp only [hparse, if_neg hopen, if_neg hprobe, DemuxerImpl.getMediaInfo]

theorem open_ok_eq_build (E : Engine) (self : DemuxerImpl) (options : DemuxingOptions)
    (info : MediaInfo) (ctx : AVFormatContext)
    (hok : (DemuxerImpl.open E self options).1 = .ok info)
    (hctx : (DemuxerImpl.open E self options).2.m_formatContext = some ctx) :
    info = MediaInfoFactory.build E ctx := by
  cases hfc : self.m_formatContext with
  | some c =>
    rw [open_when_held E self options c hfc] at hok
    exact absurd hok (by simp)
  | none =>
    cases halloc : E.avformat_alloc_context with
    | none =>
      rw [open_alloc_failed E self options hfc halloc] at hok
      exact absurd hok (by simp)
    | some ctx0 =>
      cases hparse : parseOptions E options with
      | error e =>
        rw [open_parse_failed E self options ctx0 e hfc halloc hparse] at hok
        exact absurd hok (by simp)
      | ok opts =>
        by_cases hopen : (E.avformat_open_input ctx0 self.m_uri (optionsArg opts)).1 < 0
        · rw [open_input_failed E self options ctx0 opts hfc halloc hparse hopen] at hok
          exact absurd hok (by simp)
        · by_cases hprobe : (E.avformat_find_stream_info
              (E.avformat_open_input ctx0 self.m_uri (optionsArg opts)).2.1
              (optionsArg (E.avformat_open_input ctx0 self.m_uri (optionsArg opts)).2.2)).1 < 0
          · rw [open_probe_failed E self options ctx0 opts hfc halloc hparse hopen hprobe] at hok
            exact absurd hok (by simp)
          · rw [open_succeeded E self options ctx0 opts hfc halloc hparse hopen hprobe]
              at hok hctx
            simp only [Except.ok.injEq] at hok
            simp only [Option.some.injEq] at hctx
            rw [← hok, ← hctx]

/-- C1. For a container handle whose stream count `n` is an `int` value
(`0 ≤ n < 2^31`), the `MediaInfo` of `MediaInfoFactory::build` has a `streamsInfo`
mapping whose keys are exactly `0, …, n-1` (in order, none twice): every index
below `n` is present and holds the `StreamInfo` built from the stream at that
index, and no other key is present. A successful `open()` returns the
`MediaInfo` built from the context the demuxer then holds. -/
theorem build_streamsInfo_keys_exact (E : Engine) (ctx : AVFormatContext)
    (hn : ctx.streams.length < 2 ^ 31) :
    StreamsMap.keys (MediaInfoFactory.build E ctx).streamsInfo
        = (List.range ctx.streams.length).map Int.ofNat ∧
    (∀ (i : Nat) (hi : i < ctx.streams.length),
      StreamsMap.find (MediaInfoFactory.build E ctx).streamsInfo (i : Int)
        = some (buildStreamInfo E (ctx.streams.get ⟨i, hi⟩))) ∧
    (∀ k : Int, (StreamsMap.find (MediaInfoFactory.build E ctx).streamsInfo k).isSome = true
        ↔ 0 ≤ k ∧ k < (ctx.streams.length : Int)) ∧
    (∀ (self : DemuxerImpl) (options : DemuxingOptions) (info : MediaInfo),
      (DemuxerImpl.open E self options).1 = .ok info →
      (DemuxerImpl.open E self options).2.m_formatContext = some ctx →
      info = MediaInfoFactory.build E ctx) := by
  have hinv := buildStreamsInfo_invariant E ctx.streams ctx.streams.length (Nat.le_refl _)
  have heq : (MediaInfoFactory.build E ctx).streamsInfo =
      buildStreamsInfo E [] ctx.streams (ctx.streams.length : Int) := by
    rw [build_streamsInfo_eq, AVFormatContext.nb_streams, intOfUnsigned_of_lt _ hn]
  rw [heq]
  refine ⟨hinv.1, fun i hi => hinv.2 i hi hi, ?_, ?_⟩
  · intro k
    rw [StreamsMap.find_isSome_iff, hinv.1, List.mem_map]
    constructor
    · rintro ⟨j, hj, hjk⟩
      have hjn : j < ctx.streams.length := List.mem_range.mp hj
      have : (j : Int) = k := hjk
      omega
    · rintro ⟨h0, hlt⟩
      refine ⟨k.toNat, List.mem_range.mpr (by omega), ?_⟩
      show ((k.toNat : Nat) : Int) = k
      omega
  · intro self options info hok hctx
    exact open_ok_eq_build E self options info ctx hok hctx

/-- Witness of C1 on the three-stream sample container. -/
theorem build_streamsInfo_keys_exact_witness :
    StreamsMap.keys (MediaInfoFactory.build sampleEngine sampleContext).streamsInfo = [0, 1, 2] ∧
    StreamsMap.find (MediaInfoFactory.build sampleEngine sampleContext).streamsInfo 1
      = some (buildStreamInfo sampleEngine (sampleStream 1 AVMediaType.AVMEDIA_TYPE_AUDIO)) ∧
    (DemuxerImpl.open sampleEngine closedDemuxer []).1
      = .ok (MediaInfoFactory.build sampleEngine sampleContext) := by
  have h := build_streamsInfo_keys_exact sampleEngine sampleContext (by decide)
  refine ⟨h.1, h.2.1 1 (by decide), ?_⟩
  rfl

/-! ## Stream classification on the build path -/

/-- C7. `getTypeFromCodecId` maps video to VIDEO, audio to AUDIO, subtitle to
SUBTITLE, attachment to DATA and data to DATA, and `buildStreamInfo` stores that
classification of the stream's codec type: an audio stream never classifies as
DATA and an attachment stream always classifies as DATA. -/
theorem getTypeFromCodecId_classification (E : Engine) (stream : AVStream) :
    getTypeFromCodecId AVMediaType.AVMEDIA_TYPE_VIDEO = StreamType.VIDEO ∧
    getTypeFromCodecId AVMediaType.AVMEDIA_TYPE_AUDIO = StreamType.AUDIO ∧
    getTypeFromCodecId AVMediaType.AVMEDIA_TYPE_SUBTITLE = StreamType.SUBTITLE ∧
    getTypeFromCodecId AVMediaType.AVMEDIA_TYPE_ATTACHMENT = StreamType.DATA ∧
    getTypeFromCodecId AVMediaType.AVMEDIA_TYPE_DATA = StreamType.DATA ∧
    (buildStreamInfo E stream).type = getTypeFromCodecId stream.codecpar.codec_type ∧
    (stream.codecpar.codec_type = AVMediaType.AVMEDIA_TYPE_AUDIO →
      (buildStreamInfo E stream).type ≠ StreamType.DATA) ∧
    (stream.codecpar.codec_type = AVMediaType.AVMEDIA_TYPE_ATTACHMENT →
      (buildStreamInfo E stream).type = StreamType.DATA) := by
  refine ⟨rfl, rfl, rfl, rfl, rfl, rfl, ?_, ?_⟩
  · intro h
    show getTypeFromCodecId stream.codecpar.codec_type ≠ StreamType.DATA
    rw [h]
    decide
  · intro h
    show getTypeFromCodecId stream.codecpar.codec_type = StreamType.DATA
    rw [h]
    rfl

/-- Witness of C7 on an audio and an attachment stream. -/
theorem getTypeFromCodecId_classification_witness :
    (buildStreamInfo sampleEngine (sampleStream 1 AVMediaType.AVMEDIA_TYPE_AUDIO)).type
      ≠ StreamType.DATA ∧
    (buildStreamInfo sampleEngine (sampleStream 2 AVMediaType.AVMEDIA_TYPE_ATTACHMENT)).type
      = StreamType.DATA :=
  ⟨(getTypeFromCodecId_classification sampleEngine
      (sampleStream 1 AVMediaType.AVMEDIA_TYPE_AUDIO)).2.2.2.2.2.2.1 rfl,
   (getTypeFromCodecId_classification sampleEngine
      (sampleStream 2 AVMediaType.AVMEDIA_TYPE_ATTACHMENT)).2.2.2.2.2.2.2 rfl⟩

/-! ## Demuxer life cycle -/

/-- C2. On a demuxer that holds a container context, `open(options)` throws the
"already opened" failure for every options sequence and leaves every member as
it was: the same context is held after the call, so the demuxer is still Open. -/
theorem open_on_open_fails_unchanged (E : Engine) (self : DemuxerImpl)
    (options : DemuxingOptions) (ctx : AVFormatContext)
    (hopen : self.m_formatContext = some ctx) :
    (DemuxerImpl.open E self options).1 =
        .error (Exn.runtime_error "Trying to open but it is already opened") ∧
    (DemuxerImpl.open E self options).2 = self ∧
    (DemuxerImpl.open E self options).2.m_formatContext = some ctx := by
  rw [open_when_held E self options ctx hopen]
  exact ⟨rfl, rfl, hopen⟩

/-- Witness of C2 on the sample demuxer, whatever the options. -/
theorem open_on_open_fails_unchanged_witness :
    (DemuxerImpl.open sampleEngine openDemuxer [("probesize", .int 32)]).1 =
        .error (Exn.runtime_error "Trying to open but it is already opened") ∧
    (DemuxerImpl.open sampleEngine openDemuxer [("probesize", .int 32)]).2 = openDemuxer ∧
    (DemuxerImpl.open sampleEngine openDemuxer [("probesize", .int 32)]).2.m_formatContext
      = some sampleContext :=
  open_on_open_fails_unchanged sampleEngine openDemuxer [("probesize", .int 32)] sampleContext rfl

/-- C9. `close()` is a total function of the demuxer state that cannot fail:
from any state it leaves the demuxer Closed with its other members untouched,
on a Closed demuxer it changes nothing, and `close()` after `close()` (also the
one the destructor makes) gives the state of a single `close()`. -/
theorem close_idempotent (self : DemuxerImpl) :
    (DemuxerImpl.close self).isClosed ∧
    (DemuxerImpl.close self).m_uri = self.m_uri ∧
    (DemuxerImpl.close self).m_readingPacket = self.m_readingPacket ∧
    (self.isClosed → DemuxerImpl.close self = self) ∧
    DemuxerImpl.close (DemuxerImpl.close self) = DemuxerImpl.close self ∧
    DemuxerImpl.destructor (DemuxerImpl.close self) = DemuxerImpl.close self := by
  refine ⟨rfl, rfl, rfl, ?_, rfl, rfl⟩
  intro h
  cases self
  simp only [DemuxerImpl.isClosed] at h
  subst h
  rfl

/-- Witness of C9: closing before any open, closing an Open demuxer, closing twice. -/
theorem close_idempotent_witness :
    DemuxerImpl.close closedDemuxer = closedDemuxer ∧
    DemuxerImpl.close openDemuxer = closedDemuxer ∧
    DemuxerImpl.close (DemuxerImpl.close openDemuxer) = closedDemuxer :=
  ⟨(close_idempotent closedDemuxer).2.2.2.1 rfl, rfl, rfl⟩

/-! ## Stream classification on the read path -/

theorem foldl_last_match {α : Type} (p : α → Prop) [DecidablePred p] (l : List α) (init : α) :
    l.foldl (fun acc t => if p t then t else acc) init
      = ((l.filter (fun t => decide (p t))).getLast?).getD init := by
  induction l using List.reverseRecOn with
  | nil => rfl
  | append_singleton l a ih =>
    rw [List.foldl_append, List.filter_append]
    by_cases ha : p a
    · simp [List.filter, ha]
    · simp [List.filter, ha, ih]

theorem findType_eq_lastMatching (E : Engine) (ctx : AVFormatContext) (streamIdx : Int) :
    findType E ctx streamIdx
      = (lastMatching E ctx streamIdx).getD AVMediaType.AVMEDIA_TYPE_UNKNOWN :=
  foldl_last_match (fun t => E.av_find_best_stream ctx t streamIdx = streamIdx) EXPECTED_TYPES _

/-- C10. `getStreamType` is last-match-wins over the candidate order VIDEO, AUDIO,
DATA, SUBTITLE, ATTACHMENT: when no candidate resolves to the stream index the
result is NONE, and when the last candidate that resolves to it is VIDEO,
AUDIO, DATA or SUBTITLE the result is that kind, whatever matched earlier. -/
theorem getStreamType_last_match_wins (E : Engine) (ctx : AVFormatContext) (streamIdx : Int) :
    (lastMatching E ctx streamIdx = none →
      DemuxerImpl.getStreamType E ctx streamIdx = StreamType.NONE) ∧
    (lastMatching E ctx streamIdx = some AVMediaType.AVMEDIA_TYPE_VIDEO →
      DemuxerImpl.getStreamType E ctx streamIdx = StreamType.VIDEO) ∧
    (lastMatching E ctx streamIdx = some AVMediaType.AVMEDIA_TYPE_AUDIO →
      DemuxerImpl.getStreamType E ctx streamIdx = StreamType.AUDIO) ∧
    (lastMatching E ctx streamIdx = some AVMediaType.AVMEDIA_TYPE_DATA →
      DemuxerImpl.getStreamType E ctx streamIdx = StreamType.DATA) ∧
    (lastMatching E ctx streamIdx = some AVMediaType.AVMEDIA_TYPE_SUBTITLE →
      DemuxerImpl.getStreamType E ctx streamIdx = StreamType.SUBTITLE) := by
  unfold DemuxerImpl.getStreamType
  rw [findType_eq_lastMatching]
  refine ⟨?_, ?_, ?_, ?_, ?_⟩ <;> intro h <;> rw [h] <;> rfl

/-- Witness of C10: a stream no query resolves to, a stream only the audio
query resolves to, and a stream that both the video and the audio query
resolve to (the later candidate, audio, wins). -/
theorem getStreamType_last_match_wins_witness :
    DemuxerImpl.getStreamType sampleEngine sampleContext 7 = StreamType.NONE ∧
    DemuxerImpl.getStreamType sampleEngine sampleContext 1 = StreamType.AUDIO ∧
    DemuxerImpl.getStreamType ambiguousEngine sampleContext 0 = StreamType.AUDIO :=
  ⟨(getStreamType_last_match_wins sampleEngine sampleContext 7).1 (by decide),
   (getStreamType_last_match_wins sampleEngine sampleContext 1).2.2.1 (by decide),
   (getStreamType_last_match_wins ambiguousEngine sampleContext 0).2.2.1 (by decide)⟩

/-- C8, the code at the failing input: the attachment query is the only one that
resolves to stream 2 of the sample container, the build path classifies that
stream as DATA, and `getStreamType(2)` returns NONE. -/
theorem getStreamType_attachment_is_none :
    lastMatching sampleEngine sampleContext 2 = some AVMediaType.AVMEDIA_TYPE_ATTACHMENT ∧
    (buildStreamInfo sampleEngine (sampleStream 2 AVMediaType.AVMEDIA_TYPE_ATTACHMENT)).type
      = StreamType.DATA ∧
    DemuxerImpl.getStreamType sampleEngine sampleContext 2 = StreamType.NONE := by
  refine ⟨by decide, rfl, by decide⟩

/-! ## Option parsing -/

theorem dictGet_append_single (d : AVDictionary) (k s key : String) :
    dictGet (d ++ [(k, s)]) key = (dictGet d key).or (if k = key then some s else none) := by
  induction d with
  | nil =>
    by_cases hk : k = key <;> simp [dictGet, List.find?_cons, hk]
  | cons e rest ih =>
    obtain ⟨k', v'⟩ := e
    by_cases hk : k' = key
    · simp [dictGet, List.find?_cons, hk]
    · have hb : (k' == key) = false := by simpa using hk
      simp only [dictGet, List.cons_append, List.find?_cons, hb] at ih ⊢
      exact ih

theorem dictGet_isSome_of_any (d : AVDictionary) (k : String)
    (h : d.any (fun e => e.1 == k) = true) : ∃ v, dictGet d k = some v := by
  induction d with
  | nil => simp at h
  | cons e rest ih =>
    obtain ⟨k', v'⟩ := e
    by_cases hk : k' = k
    · exact ⟨v', by simp [dictGet, List.find?_cons, hk]⟩
    · have hb : (k' == k) = false := by simpa using hk
      simp only [List.any_cons, hb, Bool.false_or] at h
      obtain ⟨v, hv⟩ := ih h
      refine ⟨v, ?_⟩
      simp only [dictGet, List.find?_cons, hb] at hv ⊢
      exact hv

theorem av_dict_set_get (E : Engine) (d : AVDictionary) (k s key : String)
    (hok : ¬ (av_dict_set E d k s).1 < 0) :
    dictGet (av_dict_set E d k s).2 key
      = (dictGet d key).or (if k = key then some s else none) := by
  have hstatus : ¬ E.av_dict_set_status d k s < 0 := by
    intro hneg
    apply hok
    simp only [av_dict_set, if_pos hneg]
    exact hneg
  by_cases hany : d.any (fun e => e.1 == k) = true
  · have hres : (av_dict_set E d k s).2 = d := by
      simp only [av_dict_set, if_neg hstatus, if_pos hany]
    rw [hres]
    by_cases hk : k = key
    · obtain ⟨v, hv⟩ := dictGet_isSome_of_any d k hany
      rw [← hk, hv]
      rfl
    · rw [if_neg hk]
      cases dictGet d key <;> rfl
  · have hres : (av_dict_set E d k s).2 = d ++ [(k, s)] := by
      simp only [av_dict_set, if_neg hstatus, if_neg hany]
    rw [hres, dictGet_append_single]

theorem firstValue_cons (k : String) (v : OptionValue) (rest : DemuxingOptions) (key : String) :
    firstValue ((k, v) :: rest) key
      = (if k = key then some (valueStr v) else none).or (firstValue rest key) := by
  by_cases hk : k = key
  · simp [firstValue, List.find?_cons, hk]
  · have hb : (k == key) = false := by simpa using hk
    simp only [firstValue, List.find?_cons, hb, if_neg hk]
    rfl

theorem parseOptionsFrom_get (E : Engine) (options : DemuxingOptions) :
    ∀ (d0 d : AVDictionary), parseOptionsFrom E d0 options = .ok d →
      ∀ key, dictGet d key = (dictGet d0 key).or (firstValue options key) := by
  induction options with
  | nil =>
    intro d0 d h key
    simp only [parseOptionsFrom, Except.ok.injEq] at h
    subst h
    cases dictGet d0 key <;> rfl
  | cons o rest ih =>
    obtain ⟨k, v⟩ := o
    intro d0 d h key
    by_cases hneg : (av_dict_set E d0 k (valueStr v)).1 < 0
    · simp [parseOptionsFrom, hneg] at h
    · simp only [parseOptionsFrom, if_neg hneg] at h
      rw [ih _ d h key, av_dict_set_get E d0 k (valueStr v) key hneg, firstValue_cons]
      cases dictGet d0 key <;> rfl

theorem parseOptionsFrom_ok (E : Engine) (hok : ∀ d k v, 0 ≤ E.av_dict_set_status d k v)
    (options : DemuxingOptions) :
    ∀ d0 : AVDictionary, ∃ d, parseOptionsFrom E d0 options = .ok d := by
  induction options with
  | nil => exact fun d0 => ⟨d0, rfl⟩
  | cons o rest ih =>
    obtain ⟨k, v⟩ := o
    intro d0
    have hneg : ¬ (av_dict_set E d0 k (valueStr v)).1 < 0 := by
      have h0 := hok d0 k (valueStr v)
      have h1 : ¬ E.av_dict_set_status d0 k (valueStr v) < 0 := by omega
      simp only [av_dict_set, if_neg h1]
      split_ifs <;> exact h1
    obtain ⟨d, hd⟩ := ih (av_dict_set E d0 k (valueStr v)).2
    exact ⟨d, by simp only [parseOptionsFrom, if_neg hneg, hd]⟩

/-- C6. The option set `parseOptions` produces maps every key of the options
sequence to the string form (decimal for an integer, the string itself
otherwise) of the value of its first occurrence and holds no other key; a later
duplicate of a key never overwrites it. The set is produced whenever no
insertion is refused by the engine. -/
theorem parseOptions_first_wins (E : Engine) (options : DemuxingOptions) :
    (∀ opts, parseOptions E options = .ok opts →
      (∀ key, dictGet opts key = firstValue options key) ∧
      (∀ key value, (key, value) ∈ options → ∃ first, (key, first) ∈ options ∧
        firstValue options key = some (valueStr first) ∧
        dictGet opts key = some (valueStr first)) ∧
      (∀ key, (∀ o ∈ options, o.1 ≠ key) → dictGet opts key = none)) ∧
    ((∀ d k v, 0 ≤ E.av_dict_set_status d k v) → ∃ opts, parseOptions E options = .ok opts) := by
  refine ⟨?_, fun hok => parseOptionsFrom_ok E hok options []⟩
  intro opts hopts
  have hget : ∀ key, dictGet opts key = firstValue options key := by
    intro key
    rw [parseOptionsFrom_get E options [] opts hopts key]
    rfl
  refine ⟨hget, ?_, ?_⟩
  · intro key value hmem
    cases hfind : List.find? (fun o => o.1 == key) options with
    | none =>
      have hnone := List.find?_eq_none.mp hfind (key, value) hmem
      simp at hnone
    | some o =>
      have hkey : o.1 = key := by simpa using List.find?_some hfind
      have hmem' : o ∈ options := List.mem_of_find?_eq_some hfind
      have hfirst : firstValue options key = some (valueStr o.2) := by
        simp only [firstValue, hfind, Option.map_some']
      refine ⟨o.2, ?_, hfirst, ?_⟩
      · rw [← hkey]
        exact hmem'
      · rw [hget key, hfirst]
  · intro key hno
    rw [hget key]
    have hfind : List.find? (fun o => o.1 == key) options = none := by
      rw [List.find?_eq_none]
      intro o ho
      simpa using hno o ho
    simp only [firstValue, hfind, Option.map_none']

/-- Witness of C6: the example of the spec, and an integer value rendered in
decimal that a later string value for the same key does not replace. -/
theorem parseOptions_first_wins_witness :
    parseOptions sampleEngine [("a", .string "1"), ("a", .string "2")] = .ok [("a", "1")] ∧
    dictGet [("a", "1")] "a" = some "1" ∧
    parseOptions sampleEngine
        [("probesize", .int (-32)), ("fflags", .string "nobuffer"), ("probesize", .string "5000")]
      = .ok [("probesize", "-32"), ("fflags", "nobuffer")] ∧
    dictGet [("probesize", "-32"), ("fflags", "nobuffer")] "probesize" = some "-32" := by
  have h1 := (parseOptions_first_wins sampleEngine [("a", .string "1"), ("a", .string "2")]).1
    [("a", "1")] rfl
  have h2 := (parseOptions_first_wins sampleEngine
    [("probesize", .int (-32)), ("fflags", .string "nobuffer"), ("probesize", .string "5000")]).1
    [("probesize", "-32"), ("fflags", "nobuffer")] (by rfl)
  refine ⟨rfl, ?_, by rfl, ?_⟩
  · rw [h1.1 "a"]
    decide
  · rw [h2.1 "probesize"]
    decide

/-! ## Reading -/

/-- C3, as stated, fails: at end of stream `read` returns the engine code but the
caller's packet comes back cleared, its buffer and timestamps no longer those
it held before the call. -/
theorem read_failure_mutates_into :
    (sampleEngine.av_read_frame sampleContext openDemuxer.m_readingPacket.getWrappedPacket).1
      = AVERROR_EOF ∧
    AVERROR_EOF < 0 ∧
    DemuxerImpl.read sampleEngine openDemuxer usedPacket
      = some (AVERROR_EOF, openDemuxer, clearedUsedPacket) ∧
    clearedUsedPacket ≠ usedPacket ∧
    clearedUsedPacket.wrapped.data ≠ usedPacket.wrapped.data ∧
    clearedUsedPacket.pts ≠ usedPacket.pts ∧
    clearedUsedPacket.dts ≠ usedPacket.dts := by
  refine ⟨rfl, by decide, by rfl, by decide, by decide, by decide, by decide⟩

/-- C3, amended. On an Open demuxer, when the engine's read call reports a
negative code `e`, `read(into)` returns exactly `e`, the demuxer stays Open on
the context the engine left, and the caller's packet is `into` after `clear()`:
it equals `into` only where `into` was clear already. -/
theorem read_failure_returns_code_and_clears (E : Engine) (self : DemuxerImpl)
    (into : AVPacketImpl) (ctx : AVFormatContext) (e : Int)
    (hopen : self.m_formatContext = some ctx)
    (hcode : (E.av_read_frame ctx self.m_readingPacket.getWrappedPacket).1 = e)
    (hneg : e < 0) :
    ∃ self', DemuxerImpl.read E self into = some (e, self', into.clear) ∧
      self'.isOpen ∧ self'.m_uri = self.m_uri ∧
      self'.m_formatContext
        = some (E.av_read_frame ctx self.m_readingPacket.getWrappedPacket).2.1 := by
  refine ⟨{ self with
      m_formatContext := some (E.av_read_frame ctx self.m_readingPacket.getWrappedPacket).2.1
      m_readingPacket :=
        { self.m_readingPacket with
          wrapped := (E.av_read_frame ctx self.m_readingPacket.getWrappedPacket).2.2 } },
    ?_, rfl, rfl, rfl⟩
  unfold DemuxerImpl.read
  rw [hopen]
  simp only [hcode, if_pos hneg]

/-- Witness of the amended C3 at end of stream on the sample demuxer. -/
theorem read_failure_returns_code_and_clears_witness :
    ∃ self', DemuxerImpl.read sampleEngine openDemuxer usedPacket
        = some (AVERROR_EOF, self', usedPacket.clear) ∧
      self'.isOpen ∧ self'.m_uri = openDemuxer.m_uri ∧
      self'.m_formatContext
        = some (sampleEngine.av_read_frame sampleContext
            openDemuxer.m_readingPacket.getWrappedPacket).2.1 :=
  read_failure_returns_code_and_clears sampleEngine openDemuxer usedPacket sampleContext
    AVERROR_EOF rfl rfl (by decide)

/-! ## Failed opens -/

/-- C4, the code at the failing input: on a Closed demuxer whose context
allocation succeeds, an option insertion refused by the engine makes `open`
throw while the allocated context stays held, and the following `open()` is
rejected as already opened. -/
theorem open_option_failure_keeps_context :
    closedDemuxer.isClosed ∧
    DemuxerImpl.open noMemoryDictEngine closedDemuxer [("probesize", .int 32)]
      = (.error (Exn.ffmpeg_error "Error while parsing option probesize" AVERROR_ENOMEM),
          allocatedDemuxer) ∧
    allocatedDemuxer.m_formatContext = some blankContext ∧
    (DemuxerImpl.open sampleEngine allocatedDemuxer []).1
      = .error (Exn.runtime_error "Trying to open but it is already opened") := by
  refine ⟨rfl, by rfl, rfl, by rfl⟩

/-- C5. On a Closed demuxer, when `open()` fails because the engine's open call
or its probe call returns a negative code, the demuxer is Closed after the
failure (in the state it had before the call), and a following `open()` for
which the engine allocates, parses, opens and probes successfully returns the
`MediaInfo` built from the probed context and leaves the demuxer Open. -/
theorem open_engine_failure_then_reopen (E : Engine) (self : DemuxerImpl)
    (options : DemuxingOptions) (ctx0 : AVFormatContext) (opts : AVDictionary)
    (hclosed : self.m_formatContext = none)
    (halloc : E.avformat_alloc_context = some ctx0)
    (hparse : parseOptions E options = .ok opts)
    (hfail : (E.avformat_open_input ctx0 self.m_uri (optionsArg opts)).1 < 0 ∨
      (E.avformat_find_stream_info
        (E.avformat_open_input ctx0 self.m_uri (optionsArg opts)).2.1
        (optionsArg (E.avformat_open_input ctx0 self.m_uri (optionsArg opts)).2.2)).1 < 0) :
    (∃ description err, err < 0 ∧
      (DemuxerImpl.open E self options).1 = .error (Exn.ffmpeg_error description err)) ∧
    (DemuxerImpl.open E self options).2.isClosed ∧
    (DemuxerImpl.open E self options).2 = self ∧
    (∀ (E2 : Engine) (options2 : DemuxingOptions) (ctx2 : AVFormatContext) (opts2 : AVDictionary),
      E2.avformat_alloc_context = some ctx2 →
      parseOptions E2 options2 = .ok opts2 →
      0 ≤ (E2.avformat_open_input ctx2 self.m_uri (optionsArg opts2)).1 →
      0 ≤ (E2.avformat_find_stream_info
        (E2.avformat_open_input ctx2 self.m_uri (optionsArg opts2)).2.1
        (optionsArg (E2.avformat_open_input ctx2 self.m_uri (optionsArg opts2)).2.2)).1 →
      (DemuxerImpl.open E2 (DemuxerImpl.open E self options).2 options2).1
        = .ok (MediaInfoFactory.build E2 (E2.avformat_find_stream_info
            (E2.avformat_open_input ctx2 self.m_uri (optionsArg opts2)).2.1
            (optionsArg (E2.avformat_open_input ctx2 self.m_uri (optionsArg opts2)).2.2)).2) ∧
      (DemuxerImpl.open E2 (DemuxerImpl.open E self options).2 options2).2.isOpen) := by
  have hself : ({ self with m_formatContext := none } : DemuxerImpl) = self := by
    cases self
    simp only at hclosed
    subst hclosed
    rfl
  have hstate : (DemuxerImpl.open E self options).2 = self ∧
      ∃ description err, err < 0 ∧
        (DemuxerImpl.open E self options).1 = .error (Exn.ffmpeg_error description err) := by
    by_cases hopen : (E.avformat_open_input ctx0 self.m_uri (optionsArg opts)).1 < 0
    · rw [open_input_failed E self options ctx0 opts hclosed halloc hparse hopen]
      exact ⟨hself, _, _, hopen, rfl⟩
    · have hprobe := hfail.resolve_left hopen
      rw [open_probe_failed E self options ctx0 opts hclosed halloc hparse hopen hprobe]
      exact ⟨hself, _, _, hprobe, rfl⟩
  obtain ⟨hsame, hthrown⟩ := hstate
  refine ⟨hthrown, ?_, hsame, ?_⟩
  · rw [hsame]
    exact hclosed
  · intro E2 options2 ctx2 opts2 halloc2 hparse2 hopen2 hprobe2
    rw [hsame, open_succeeded E2 self options2 ctx2 opts2 hclosed halloc2 hparse2
      (by omega) (by omega)]
    exact ⟨rfl, rfl⟩

/-- Witness of C5: the engine first reports a missing file, then opens the
sample container. -/
theorem open_engine_failure_then_reopen_witness :
    (DemuxerImpl.open missingFileEngine closedDemuxer []).1
      = .error (Exn.ffmpeg_error "Error opening media: clip.mkv" AVERROR_ENOENT) ∧
    (DemuxerImpl.open missingFileEngine closedDemuxer []).2.isClosed ∧
    (DemuxerImpl.open sampleEngine (DemuxerImpl.open missingFileEngine closedDemuxer []).2 []).1
      = .ok (MediaInfoFactory.build sampleEngine sampleContext) ∧
    (DemuxerImpl.open sampleEngine
      (DemuxerImpl.open missingFileEngine closedDemuxer []).2 []).2.isOpen := by
  have h := open_engine_failure_then_reopen missingFileEngine closedDemuxer [] blankContext []
    rfl rfl rfl (Or.inl (by decide))
  have h2 := h.2.2.2 sampleEngine [] blankContext [] rfl rfl (by decide) (by decide)
  exact ⟨by rfl, h.2.1, h2.1, h2.2⟩

end avformat

end libffmpegxx
